import Mathlib

/-!
Verification of the ecommerce backend's checkout / payment-settlement core.

The definitions below are a shallow embedding of the TypeScript source:
  * `OrdersService` (createOrder, generateOrderNumber, cancelOrder),
  * `CartService` (getCart / formatCartResponse / clearCart),
  * `VNPayService` (createPaymentUrl, validateReturn, isPaymentSuccessful,
    getResponseMessage) and `PaymentsService` (handleVNPayReturn,
    markOrderPaid, markOrderPaymentFailed, findOrderForPayment,
    createStripePaymentIntent, createVNPayPaymentUrl, handlePaymentSuccess),
  * the `PaymentsController` VNPay IPN endpoint.

Modelling conventions:
  * `decimal(10,2)` money columns and JS numbers are modelled as `ℚ`;
    `Math.round(x)` is `⌊x + 1/2⌋` (JS rounds half toward +∞).
  * The relational store reachable through the checkout transaction's
    `queryRunner` is `DB`; the cart store is threaded separately because
    `CartService` talks to its own repository connection (its writes are NOT
    part of the checkout transaction).
  * UUID primary keys are modelled as freshly assigned naturals; `created_at`
    day-granularity timestamps as a `YYYYMMDD` string.
  * A database operation that may fail at runtime is modelled by an injected
    failure point (`FailPoint`); `createOrder` rolls its transactional view
    back to the entry state when one fires, exactly as the source's
    `rollbackTransaction` does.
  * HMAC-SHA512 with the configured secret is an opaque parameter
    `hmac : String → String`; URL percent-encoding of the canonical query
    string is elided (both signing and verification use the same encoding,
    so the comparison is unaffected).
-/

namespace ECom

/-- The `OrderStatus` enum from `order.entity.ts`. -/
inductive OrderStatus
  | pending
  | processing
  | shipped
  | delivered
  | cancelled
deriving DecidableEq, Repr

/-- The `PaymentStatus` enum from `order.entity.ts`. -/
inductive PaymentStatus
  | pending
  | paid
  | failed
  | refunded
deriving DecidableEq, Repr

/-- The `Product` entity (the fields the checkout core reads). -/
structure Product where
  id : String
  name : String
  price : ℚ
  stock_quantity : ℤ
deriving DecidableEq, Repr

/-- A stored `CartItem` row: captured unit price, not a live catalog price. -/
structure CartItem where
  product_id : String
  quantity : ℕ
  price : ℚ
deriving DecidableEq, Repr

/-- One line of `CartService.formatCartResponse` output: the stored cart item
joined with the product's current name. -/
structure CartLine where
  product_id : String
  product_name : String
  quantity : ℕ
  price : ℚ
deriving DecidableEq, Repr

/-- The `line_total = Number(item.price) * item.quantity` in
`formatCartResponse`. -/
def CartLine.line_total (l : CartLine) : ℚ :=
  l.price * l.quantity

/-- The `Order` entity. `created_day` stands for the calendar day of
`created_at`; `user_email`/`user_first_name` are the joined `user` relation
fields the mail dispatch reads. -/
structure Order where
  id : ℕ
  user_id : String
  order_number : String
  status : OrderStatus
  payment_status : PaymentStatus
  payment_method : String
  subtotal : ℚ
  shipping_fee : ℚ
  tax : ℚ
  discount : ℚ
  total : ℚ
  currency : String
  notes : Option String
  created_day : String
  user_email : Option String
  user_first_name : String
deriving DecidableEq, Repr

/-- The `OrderItem` entity: denormalized snapshot of the product at order time. -/
structure OrderItem where
  order_id : ℕ
  product_id : String
  product_name : String
  product_sku : Option String
  quantity : ℕ
  price : ℚ
  subtotal : ℚ
deriving DecidableEq, Repr

/-- The `ShippingAddress` entity, the 1:1 snapshot child of an `Order`. -/
structure ShippingAddress where
  order_id : ℕ
  first_name : String
  last_name : String
  email : String
  phone : Option String
  address_line1 : String
  address_line2 : Option String
  city : String
  state : Option String
  postal_code : Option String
  country : String
deriving DecidableEq, Repr

/-- The `dto.shipping_address` of `CreateOrderDto`. -/
structure ShippingAddressDto where
  first_name : String
  last_name : String
  email : Option String
  phone : Option String
  address_line1 : String
  address_line2 : Option String
  city : String
  state : Option String
  postal_code : Option String
  country : String
deriving DecidableEq, Repr

/-- The `CreateOrderDto`. -/
structure CreateOrderDto where
  shipping_address : ShippingAddressDto
  payment_method : Option String
  notes : Option String
deriving DecidableEq, Repr

/-- The relational store as seen through one connection, plus a counter of
confirmation notifications handed to the mail service. -/
structure DB where
  products : List Product
  orders : List Order
  orderItems : List OrderItem
  addresses : List ShippingAddress
  emailsSent : ℕ
deriving DecidableEq, Repr

/-- JS `Math.round x` (round half toward positive infinity). -/
def jsRound (q : ℚ) : ℤ :=
  ⌊q + 1 / 2⌋

/-- The `Math.round(subtotal * 100) / 100` in `formatCartResponse`. -/
def round2 (q : ℚ) : ℚ :=
  (jsRound (q * 100) : ℚ) / 100

/-- Cart `subtotal` computed by `formatCartResponse`. -/
def cartSubtotal (lines : List CartLine) : ℚ :=
  round2 (lines.map CartLine.line_total).sum

/-- The `productRepository.findOne({ where: { id } })`. -/
def findProduct (ps : List Product) (pid : String) : Option Product :=
  ps.find? (fun p => p.id == pid)

/-- The `stock_quantity` column of product `pid`, when the row exists. -/
def stockOf (ps : List Product) (pid : String) : Option ℤ :=
  (findProduct ps pid).map Product.stock_quantity

/-- The SQL relative update
`UPDATE products SET stock_quantity = stock_quantity + δ WHERE id = pid`. -/
def adjustStock (ps : List Product) (pid : String) (delta : ℤ) : List Product :=
  ps.map (fun p =>
    if p.id == pid then { p with stock_quantity := p.stock_quantity + delta } else p)

/-- The `CartService.getCart` joined view: each stored cart item with the current
product name (`item.product?.name`, defaulting like the optional chain). -/
def mkCartLines (ps : List Product) (cart : List CartItem) : List CartLine :=
  cart.map (fun ci =>
    { product_id := ci.product_id
      product_name := ((findProduct ps ci.product_id).map Product.name).getD ""
      quantity := ci.quantity
      price := ci.price })

/-- The `String(count + 1).padStart(4, '0')`. -/
def padStart4 (s : String) : String :=
  String.mk (List.replicate (4 - s.length) '0') ++ s

/-- The `getCount` query of `generateOrderNumber`: orders created today
(`created_at >= todayStart`; in this day-granular sequential model, orders
whose `created_day` is today). -/
def todayCount (orders : List Order) (today : String) : ℕ :=
  (orders.filter (fun o => o.created_day == today)).length

/-- The `OrdersService.generateOrderNumber`: `ORD-<YYYYMMDD>-<count+1 padded>`. -/
def generateOrderNumber (orders : List Order) (today : String) : String :=
  "ORD-" ++ today ++ "-" ++ padStart4 (Nat.repr (todayCount orders today + 1))

/-- Business / transport errors surfaced by the services. -/
inductive SvcError
  | emptyCart
  | productNotFound (name : String)
  | insufficientStock (name : String)
  | injectedFailure
  | notFound
  | invalidState
  | alreadyPaid
  | alreadyRefunded
  | invalidSignature
deriving DecidableEq, Repr

/-- A database operation inside `createOrder` at which a runtime failure is
injected.  `cartDelete` / `cartReadAfterDelete` are the item deletion and the
subsequent cart re-read inside `CartService.clearCart`; `commitTx` is
`queryRunner.commitTransaction()`. -/
inductive FailPoint
  | saveOrder
  | saveItem (i : ℕ)
  | saveAddress
  | decStock (i : ℕ)
  | cartDelete
  | cartReadAfterDelete
  | commitTx
deriving DecidableEq, Repr

/-- Step 1 of `createOrder`: re-validate every cart line against live stock,
returning the first failure. -/
def validateStock (ps : List Product) : List CartLine → Option SvcError
  | [] => none
  | l :: rest =>
    match findProduct ps l.product_id with
    | none => some (.productNotFound l.product_name)
    | some p =>
      if p.stock_quantity < (l.quantity : ℤ) then some (.insufficientStock p.name)
      else validateStock ps rest

/-- The `OrderItem` snapshot built from one cart line (step 5 of
`createOrder`): name copied from the joined product, price and subtotal from
the cart line. -/
def mkOrderItem (oid : ℕ) (l : CartLine) : OrderItem :=
  { order_id := oid
    product_id := l.product_id
    product_name := l.product_name
    product_sku := none
    quantity := l.quantity
    price := l.price
    subtotal := l.line_total }

/-- The item-save loop of `createOrder` (one `manager.save` per line), with
failure injection per index. -/
def saveOrderItems (oid : ℕ) (failAt : Option FailPoint) :
    DB → ℕ → List CartLine → Except SvcError DB
  | txn, _, [] => .ok txn
  | txn, i, l :: rest =>
    if failAt == some (.saveItem i) then .error .injectedFailure
    else
      saveOrderItems oid failAt
        { txn with orderItems := txn.orderItems ++ [mkOrderItem oid l] } (i + 1) rest

/-- The stock-decrement loop of `createOrder` (one relative `UPDATE` per
line), with failure injection per index. -/
def decrementStock (failAt : Option FailPoint) :
    DB → ℕ → List CartLine → Except SvcError DB
  | txn, _, [] => .ok txn
  | txn, i, l :: rest =>
    if failAt == some (.decStock i) then .error .injectedFailure
    else
      decrementStock failAt
        { txn with products := adjustStock txn.products l.product_id (-(l.quantity : ℤ)) }
        (i + 1) rest

/-- The `ShippingAddress` snapshot of step 6 of `createOrder`. -/
def mkShippingAddress (oid : ℕ) (dto : ShippingAddressDto) (userEmail : String) :
    ShippingAddress :=
  { order_id := oid
    first_name := dto.first_name
    last_name := dto.last_name
    email := dto.email.getD userEmail
    phone := dto.phone
    address_line1 := dto.address_line1
    address_line2 := dto.address_line2
    city := dto.city
    state := dto.state
    postal_code := dto.postal_code
    country := dto.country }

/-- The `Order` row built in step 4 of `createOrder`. -/
def mkOrder (db : DB) (lines : List CartLine) (userId : String) (dto : CreateOrderDto)
    (userEmail userName today : String) : Order :=
  { id := db.orders.length + 1
    user_id := userId
    order_number := generateOrderNumber db.orders today
    status := .pending
    payment_status := .pending
    payment_method := dto.payment_method.getD "cod"
    subtotal := cartSubtotal lines
    shipping_fee := 0
    tax := 0
    discount := 0
    total := cartSubtotal lines + 0 + 0 - 0
    currency := "USD"
    notes := dto.notes
    created_day := today
    user_email := some userEmail
    user_first_name := userName }

/-- The `OrdersService.createOrder`.

The first component of the result is the committed state: the relational
store plus the user's cart-item rows.  Writes issued through
`queryRunner.manager` accumulate in the transactional view and are discarded
(`rollbackTransaction`) when a failure fires; the cart-item deletion inside
`cartService.clearCart` goes through the cart service's own repository
connection and therefore takes effect immediately, outside the transaction.
The post-commit confirmation email is counted fire-and-forget. -/
def createOrder (db : DB) (cart : List CartItem) (userId : String) (dto : CreateOrderDto)
    (userEmail userName today : String) (failAt : Option FailPoint) :
    (DB × List CartItem) × Except SvcError Order :=
  let lines := mkCartLines db.products cart
  if lines.isEmpty then ((db, cart), .error .emptyCart)
  else
    match validateStock db.products lines with
    | some e => ((db, cart), .error e)
    | none =>
      let order := mkOrder db lines userId dto userEmail userName today
      if failAt == some .saveOrder then ((db, cart), .error .injectedFailure)
      else
        let txn1 : DB := { db with orders := db.orders ++ [order] }
        match saveOrderItems order.id failAt txn1 0 lines with
        | .error e => ((db, cart), .error e)
        | .ok txn2 =>
          if failAt == some .saveAddress then ((db, cart), .error .injectedFailure)
          else
            let txn3 : DB :=
              { txn2 with
                addresses :=
                  txn2.addresses ++ [mkShippingAddress order.id dto.shipping_address userEmail] }
            match decrementStock failAt txn3 0 lines with
            | .error e => ((db, cart), .error e)
            | .ok txn4 =>
              if failAt == some .cartDelete then ((db, cart), .error .injectedFailure)
              else if failAt == some .cartReadAfterDelete then
                ((db, []), .error .injectedFailure)
              else if failAt == some .commitTx then ((db, []), .error .injectedFailure)
              else (({ txn4 with emailsSent := txn4.emailsSent + 1 }, []), .ok order)

/-- The `orderRepository`-style update of every order row with the given id. -/
def updateOrder (orders : List Order) (oid : ℕ) (f : Order → Order) : List Order :=
  orders.map (fun o => if o.id == oid then f o else o)

/-- The `OrdersService.cancelOrder`: only `pending` orders may be cancelled; on
success each order line's quantity is restored to stock by a relative
`UPDATE`, then the status is saved as `cancelled`. -/
def cancelOrder (db : DB) (orderId : ℕ) (userId : String) :
    DB × Except SvcError Order :=
  match db.orders.find? (fun o => o.id == orderId && o.user_id == userId) with
  | none => (db, .error .notFound)
  | some order =>
    if order.status ≠ OrderStatus.pending then (db, .error .invalidState)
    else
      let items := db.orderItems.filter (fun it => it.order_id == orderId)
      let products1 :=
        items.foldl (fun ps it => adjustStock ps it.product_id (it.quantity : ℤ)) db.products
      let order1 := { order with status := OrderStatus.cancelled }
      ({ db with
          products := products1
          orders := updateOrder db.orders order.id (fun o => { o with status := .cancelled }) },
        .ok order1)

/-! ### VNPay service (`vnpay.service.ts`) -/

/-- A query / request parameter set, as the JS object's key–value entries
(keys unique, `undefined` fields absent). -/
def Params := List (String × String)

/-- Read one parameter (`params.vnp_Foo`), `none` when absent. -/
def getParam (ps : List (String × String)) (k : String) : Option String :=
  (ps.find? (fun kv => kv.1 == k)).map Prod.snd

/-- Overwrite the value stored under an existing key. -/
def setParam (ps : List (String × String)) (k v : String) : List (String × String) :=
  ps.map (fun kv => if kv.1 == k then (kv.1, v) else kv)

/-- Lexicographic comparison of character lists by code point (the order
JS `Array.prototype.sort()` gives ASCII keys). -/
def charsLe : List Char → List Char → Bool
  | [], _ => true
  | _ :: _, [] => false
  | a :: as, b :: bs =>
    if a < b then true
    else if b < a then false
    else charsLe as bs

/-- Key order used by the canonicalization. -/
def keyLe (a b : String) : Bool :=
  charsLe a.data b.data

/-- Insert one entry into a key-sorted entry list (kernel-reducible
insertion sort; with unique keys this produces the same alphabetical order
as the source's `Object.keys(obj).sort()`). -/
def insertPair (kv : String × String) : List (String × String) → List (String × String)
  | [] => [kv]
  | x :: xs => if keyLe kv.1 x.1 then kv :: x :: xs else x :: insertPair kv xs

/-- Sort an entry list by key. -/
def sortPairs : List (String × String) → List (String × String)
  | [] => []
  | x :: xs => insertPair x (sortPairs xs)

/-- The `VNPayService.sortObject`: keys sorted alphabetically, empty values
dropped (`undefined` entries are already absent from the list). -/
def sortObject (ps : List (String × String)) : List (String × String) :=
  sortPairs (ps.filter (fun kv => kv.2 ≠ ""))

/-- The `new URLSearchParams(sorted).toString()` (percent-encoding elided, see
the header note). -/
def queryString (ps : List (String × String)) : String :=
  String.intercalate "&" (ps.map (fun kv => kv.1 ++ "=" ++ kv.2))

/-- The data `validateReturn` signs: all parameters except `vnp_SecureHash`
and `vnp_SecureHashType`, sorted and serialized. -/
def signData (ps : List (String × String)) : String :=
  queryString (sortObject
    (ps.filter (fun kv => kv.1 ≠ "vnp_SecureHash" ∧ kv.1 ≠ "vnp_SecureHashType")))

/-- Result record of `VNPayService.validateReturn`. -/
structure ValidateResult where
  isValid : Bool
  responseCode : String
  orderId : String
  transactionNo : String
deriving DecidableEq, Repr

/-- The `VNPayService.validateReturn`: recompute the HMAC over the sorted
parameters minus the two hash fields and compare with the supplied
`vnp_SecureHash`. -/
def validateReturn (hmac : String → String) (ps : List (String × String)) :
    ValidateResult :=
  { isValid := (getParam ps "vnp_SecureHash").getD "" == hmac (signData ps)
    responseCode := (getParam ps "vnp_ResponseCode").getD ""
    orderId := (getParam ps "vnp_TxnRef").getD ""
    transactionNo := (getParam ps "vnp_TransactionNo").getD "" }

/-- The `VNPayService.isPaymentSuccessful`. -/
def isPaymentSuccessful (responseCode : String) : Bool :=
  responseCode == "00"

/-- The `VNPayService.getResponseMessage`: the fixed code → message table. -/
def getResponseMessage (code : String) : String :=
  if code == "00" then "Transaction successful"
  else if code == "07" then "Deducted money successfully. Transaction is suspected of fraud"
  else if code == "09" then "Transaction failed: Card/Account not registered for InternetBanking"
  else if code == "10" then "Transaction failed: Incorrect card/account information more than 3 times"
  else if code == "11" then "Transaction failed: Payment timeout"
  else if code == "12" then "Transaction failed: Card/Account is locked"
  else if code == "13" then "Transaction failed: Incorrect OTP"
  else if code == "24" then "Transaction cancelled by customer"
  else if code == "51" then "Transaction failed: Insufficient balance"
  else if code == "65" then "Transaction failed: Exceeded daily transaction limit"
  else if code == "75" then "Bank is under maintenance"
  else if code == "79" then "Transaction failed: Incorrect payment password"
  else if code == "99" then "Other errors"
  else "Unknown error"

/-- The `VNPayService.createPaymentUrl`: build the canonical sorted parameter
set, sign it, append the signature, and return the gateway URL. -/
def createPaymentUrl (hmac : String → String) (tmnCode returnUrl urlBase : String)
    (order : Order) (ipAddr createDate expireDate : String) : String :=
  let amount := jsRound (order.total * 100)
  let params : List (String × String) :=
    [("vnp_Version", "2.1.0"),
     ("vnp_Command", "pay"),
     ("vnp_TmnCode", tmnCode),
     ("vnp_Locale", "vn"),
     ("vnp_CurrCode", "VND"),
     ("vnp_TxnRef", order.order_number),
     ("vnp_OrderInfo", "Payment for order " ++ order.order_number),
     ("vnp_OrderType", "other"),
     ("vnp_Amount", amount.repr),
     ("vnp_ReturnUrl", returnUrl),
     ("vnp_IpAddr", ipAddr),
     ("vnp_CreateDate", createDate),
     ("vnp_ExpireDate", expireDate)]
  let sortedParams := sortObject params
  let signed := hmac (queryString sortedParams)
  urlBase ++ "?" ++ queryString (sortedParams ++ [("vnp_SecureHash", signed)])

/-! ### Payments service (`payments.service.ts`) -/

/-- The `orderRepository.findOne({ where: { order_number } })`. -/
def findOrderByNumber (orders : List Order) (num : String) : Option Order :=
  orders.find? (fun o => o.order_number == num)

/-- The `orderRepository.findOne({ where: { id } })`. -/
def findOrderById (orders : List Order) (oid : ℕ) : Option Order :=
  orders.find? (fun o => o.id == oid)

/-- The `PaymentsService.markOrderPaid`: unconditionally set
`payment_status = paid` and `status = processing`, then attempt the
confirmation email when the joined user has an email; the email attempt is
wrapped in try/catch, so `emailOk` (whether the mail service succeeds) never
affects the outcome. -/
def markOrderPaid (db : DB) (order : Order) (transactionId : String) (emailOk : Bool) : DB :=
  let _ := transactionId
  let _ := emailOk
  let db1 : DB :=
    { db with
        orders := updateOrder db.orders order.id
          (fun o => { o with payment_status := .paid, status := .processing }) }
  match order.user_email with
  | some _ => { db1 with emailsSent := db1.emailsSent + 1 }
  | none => db1

/-- The `PaymentsService.markOrderPaymentFailed`: set `payment_status = failed`. -/
def markOrderPaymentFailed (db : DB) (order : Order) : DB :=
  { db with
      orders := updateOrder db.orders order.id
        (fun o => { o with payment_status := .failed }) }

/-- Fields `handleVNPayReturn` returns on the non-throwing path. -/
structure VNPayReturnResult where
  success : Bool
  message : String
  orderId : ℕ
  orderNumber : String
deriving DecidableEq, Repr

/-- The `PaymentsService.handleVNPayReturn`: verify the signature (throwing
`BadRequestException` on mismatch, before any repository access), resolve
the order by `vnp_TxnRef` (throwing `NotFoundException` when absent), then
settle by response code. -/
def handleVNPayReturn (hmac : String → String) (db : DB) (ps : List (String × String))
    (emailOk : Bool) : DB × Except SvcError VNPayReturnResult :=
  let result := validateReturn hmac ps
  if !result.isValid then (db, .error .invalidSignature)
  else
    match findOrderByNumber db.orders result.orderId with
    | none => (db, .error .notFound)
    | some order =>
      if isPaymentSuccessful result.responseCode then
        (markOrderPaid db order result.transactionNo emailOk,
          .ok { success := true
                message := getResponseMessage result.responseCode
                orderId := order.id
                orderNumber := order.order_number })
      else
        (markOrderPaymentFailed db order,
          .ok { success := false
                message := getResponseMessage result.responseCode
                orderId := order.id
                orderNumber := order.order_number })

/-- Body of the `POST /payments/vnpay/ipn` controller handler: it awaits
`handleVNPayReturn` without catching, so a thrown exception propagates to
the transport layer; otherwise it maps the result onto VNPay's
`RspCode`/`Message` response. -/
def handleVNPayIPN (hmac : String → String) (db : DB) (ps : List (String × String))
    (emailOk : Bool) : DB × Except SvcError (String × String) :=
  match handleVNPayReturn hmac db ps emailOk with
  | (db1, .error e) => (db1, .error e)
  | (db1, .ok r) => (db1, .ok (if r.success then "00" else "99", r.message))

/-- The `PaymentsService.handlePaymentSuccess` (Stripe webhook path): a missing
`metadata.order_id` or an unresolvable order is logged and dropped — the
handler returns normally. -/
def handlePaymentSuccess (db : DB) (metadataOrderId : Option ℕ) (paymentDataId : String)
    (emailOk : Bool) : DB × Except SvcError Unit :=
  match metadataOrderId with
  | none => (db, .ok ())
  | some oid =>
    match findOrderById db.orders oid with
    | none => (db, .ok ())
    | some order => (markOrderPaid db order paymentDataId emailOk, .ok ())

/-- The `PaymentsService.findOrderForPayment`: load the caller's order and
reject orders already in a terminal payment state. -/
def findOrderForPayment (db : DB) (orderId : ℕ) (userId : String) :
    Except SvcError Order :=
  match db.orders.find? (fun o => o.id == orderId && o.user_id == userId) with
  | none => .error .notFound
  | some order =>
    if order.payment_status = PaymentStatus.paid then .error .alreadyPaid
    else if order.payment_status = PaymentStatus.refunded then .error .alreadyRefunded
    else .ok order

/-- Result of `createStripePaymentIntent`. -/
structure StripeIntentResult where
  clientSecret : String
  paymentIntentId : String
  amount : ℚ
  currency : String
deriving DecidableEq, Repr

/-- The `PaymentsService.createStripePaymentIntent`: validate the order, obtain
an intent from the external Stripe gateway (modelled as the provided
`intent = (client_secret, id)` pair), and record `payment_method = stripe`. -/
def createStripePaymentIntent (db : DB) (orderId : ℕ) (userId : String)
    (intent : String × String) : DB × Except SvcError StripeIntentResult :=
  match findOrderForPayment db orderId userId with
  | .error e => (db, .error e)
  | .ok order =>
    ({ db with
        orders := updateOrder db.orders order.id
          (fun o => { o with payment_method := "stripe" }) },
      .ok { clientSecret := intent.1
            paymentIntentId := intent.2
            amount := order.total
            currency := order.currency })

/-- Result of `createVNPayPaymentUrl`. -/
structure VNPayUrlResult where
  paymentUrl : String
  orderNumber : String
deriving DecidableEq, Repr

/-- The `PaymentsService.createVNPayPaymentUrl`: validate the order, build the
signed payment URL, and record `payment_method = vnpay`. -/
def createVNPayPaymentUrl (hmac : String → String) (tmnCode returnUrl urlBase : String)
    (db : DB) (orderId : ℕ) (userId : String) (ipAddr createDate expireDate : String) :
    DB × Except SvcError VNPayUrlResult :=
  match findOrderForPayment db orderId userId with
  | .error e => (db, .error e)
  | .ok order =>
    ({ db with
        orders := updateOrder db.orders order.id
          (fun o => { o with payment_method := "vnpay" }) },
      .ok { paymentUrl :=
              createPaymentUrl hmac tmnCode returnUrl urlBase order ipAddr createDate expireDate
            orderNumber := order.order_number })

/-! ### Proof infrastructure -/

/-- The `find?` commutes with mapping a function that does not disturb the
predicate. -/
theorem find?_map_pres {α : Type} (f : α → α) (p : α → Bool)
    (h : ∀ a, p (f a) = p a) (l : List α) :
    (l.map f).find? p = (l.find? p).map f := by
  induction l with
  | nil => rfl
  | cons a t ih =>
    cases hpa : p a with
    | true => simp [List.find?_cons, h a, hpa]
    | false => simp [List.find?_cons, h a, hpa, ih]

/-- Effect of one relative stock update on any product's stock column. -/
theorem stockOf_adjustStock (ps : List Product) (q pid : String) (d : ℤ) :
    stockOf (adjustStock ps q d) pid =
      (stockOf ps pid).map (fun s => if pid = q then s + d else s) := by
  unfold stockOf findProduct adjustStock
  rw [find?_map_pres]
  · cases hf : ps.find? (fun p => p.id == pid) with
    | none => rfl
    | some p =>
      have hid : p.id = pid := by
        have := List.find?_some hf
        simpa [beq_iff_eq] using this
      by_cases hq : pid = q
      · simp [Option.map_some, hid, hq]
      · simp [Option.map_some, hid, hq]
  · intro a
    by_cases ha : a.id = q <;> simp [ha]

theorem stockOf_adjustStock_self (ps : List Product) (pid : String) (d : ℤ) :
    stockOf (adjustStock ps pid d) pid = (stockOf ps pid).map (· + d) := by
  rw [stockOf_adjustStock]; simp

theorem stockOf_adjustStock_ne (ps : List Product) (q pid : String) (d : ℤ)
    (h : pid ≠ q) :
    stockOf (adjustStock ps q d) pid = stockOf ps pid := by
  rw [stockOf_adjustStock]
  simp [h]

/-- A sequence of relative stock updates, one per element of `xs` (the shape
of both the checkout decrement loop and the cancel restore loop). -/
def adjustMany {α : Type} (pid : α → String) (delta : α → ℤ)
    (xs : List α) (ps : List Product) : List Product :=
  xs.foldl (fun acc x => adjustStock acc (pid x) (delta x)) ps

theorem stockOf_adjustMany_notMem {α : Type} (pid : α → String) (delta : α → ℤ)
    (xs : List α) (ps : List Product) (q : String) (h : q ∉ xs.map pid) :
    stockOf (adjustMany pid delta xs ps) q = stockOf ps q := by
  induction xs generalizing ps with
  | nil => rfl
  | cons a t ih =>
    simp only [List.map_cons, List.mem_cons, not_or] at h
    show stockOf (adjustMany pid delta t (adjustStock ps (pid a) (delta a))) q = _
    rw [ih _ h.2, stockOf_adjustStock_ne _ _ _ _ h.1]

theorem stockOf_adjustMany_mem {α : Type} (pid : α → String) (delta : α → ℤ)
    (xs : List α) (ps : List Product) (x : α)
    (hnd : (xs.map pid).Nodup) (hx : x ∈ xs) :
    stockOf (adjustMany pid delta xs ps) (pid x) =
      (stockOf ps (pid x)).map (· + delta x) := by
  induction xs generalizing ps with
  | nil => cases hx
  | cons a t ih =>
    simp only [List.map_cons, List.nodup_cons] at hnd
    rcases List.mem_cons.mp hx with rfl | hxt
    · show stockOf (adjustMany pid delta t (adjustStock ps (pid x) (delta x))) (pid x) = _
      rw [stockOf_adjustMany_notMem _ _ _ _ _ hnd.1, stockOf_adjustStock_self]
    · have hne : pid x ≠ pid a := by
        intro hcontra
        exact hnd.1 (hcontra ▸ List.mem_map_of_mem pid hxt)
      show stockOf (adjustMany pid delta t (adjustStock ps (pid a) (delta a))) (pid x) = _
      rw [ih _ hnd.2 hxt, stockOf_adjustStock_ne _ _ _ _ hne]

/-- With no injected failure, the item-save loop appends one snapshot per
cart line and touches nothing else. -/
theorem saveOrderItems_none (oid : ℕ) (lines : List CartLine) :
    ∀ (txn : DB) (i : ℕ),
      saveOrderItems oid none txn i lines =
        .ok { txn with orderItems := txn.orderItems ++ lines.map (mkOrderItem oid) } := by
  induction lines with
  | nil => intro txn i; simp [saveOrderItems]
  | cons l t ih =>
    intro txn i
    simp only [saveOrderItems]
    rw [ih]
    simp [List.append_assoc]

/-- With no injected failure, the stock-decrement loop applies exactly the
relative decrement of each line and touches nothing else. -/
theorem decrementStock_none (lines : List CartLine) :
    ∀ (txn : DB) (i : ℕ),
      decrementStock none txn i lines =
        .ok { txn with
                products :=
                  adjustMany CartLine.product_id (fun l => -(l.quantity : ℤ))
                    lines txn.products } := by
  induction lines with
  | nil => intro txn i; simp [decrementStock, adjustMany]
  | cons l t ih =>
    intro txn i
    simp only [decrementStock]
    rw [ih]
    rfl

/-- The committed state a successful `createOrder` leaves behind. -/
def successState (db : DB) (cart : List CartItem) (userId : String)
    (dto : CreateOrderDto) (userEmail userName today : String) : DB :=
  let lines := mkCartLines db.products cart
  let order := mkOrder db lines userId dto userEmail userName today
  { db with
      orders := db.orders ++ [order]
      orderItems := db.orderItems ++ lines.map (mkOrderItem order.id)
      addresses := db.addresses ++ [mkShippingAddress order.id dto.shipping_address userEmail]
      products :=
        adjustMany CartLine.product_id (fun l => -(l.quantity : ℤ)) lines db.products
      emailsSent := db.emailsSent + 1 }

/-- Characterization of `createOrder` when every cart line validates and no
runtime failure is injected: all writes commit and the cart is cleared. -/
theorem createOrder_success (db : DB) (cart : List CartItem) (userId : String)
    (dto : CreateOrderDto) (userEmail userName today : String)
    (hne : mkCartLines db.products cart ≠ [])
    (hval : validateStock db.products (mkCartLines db.products cart) = none) :
    createOrder db cart userId dto userEmail userName today none =
      ((successState db cart userId dto userEmail userName today, []),
        .ok (mkOrder db (mkCartLines db.products cart) userId dto userEmail userName today)) := by
  have hempty : (mkCartLines db.products cart).isEmpty = false := by
    cases h : mkCartLines db.products cart with
    | nil => exact absurd h hne
    | cons a t => rfl
  unfold createOrder
  simp only [hempty, hval, saveOrderItems_none, decrementStock_none]
  rfl

/-- Stock validation succeeds when every line's product exists with enough
stock. -/
theorem validateStock_none (ps : List Product) (lines : List CartLine)
    (h : ∀ l ∈ lines, ∃ p, findProduct ps l.product_id = some p ∧
        (l.quantity : ℤ) ≤ p.stock_quantity) :
    validateStock ps lines = none := by
  induction lines with
  | nil => rfl
  | cons l t ih =>
    obtain ⟨p, hp, hle⟩ := h l (List.mem_cons_self l t)
    unfold validateStock
    simp only [hp]
    rw [if_neg (not_lt.mpr hle)]
    exact ih (fun x hx => h x (List.mem_cons_of_mem l hx))

/-- Stock validation reports some failure when some line's product exists
with insufficient stock. -/
theorem validateStock_some (ps : List Product) (lines : List CartLine)
    (h : ∃ l ∈ lines, ∃ p, findProduct ps l.product_id = some p ∧
        p.stock_quantity < (l.quantity : ℤ)) :
    ∃ e, validateStock ps lines = some e := by
  induction lines with
  | nil => obtain ⟨l, hl, _⟩ := h; cases hl
  | cons a t ih =>
    unfold validateStock
    cases hf : findProduct ps a.product_id with
    | none => exact ⟨_, rfl⟩
    | some p =>
      simp only
      by_cases hlt : p.stock_quantity < (a.quantity : ℤ)
      · exact ⟨_, by rw [if_pos hlt]⟩
      · rw [if_neg hlt]
        obtain ⟨l, hl, q, hq, hqlt⟩ := h
        rcases List.mem_cons.mp hl with rfl | hlt'
        · rw [hf] at hq
          cases hq
          exact absurd hqlt hlt
        · exact ih ⟨l, hlt', q, hq, hqlt⟩

/-- The `createOrder` on a cart that fails stock validation: the specific error
surfaces and neither the store nor the cart changes. -/
theorem createOrder_validation_error (db : DB) (cart : List CartItem) (userId : String)
    (dto : CreateOrderDto) (userEmail userName today : String)
    (failAt : Option FailPoint) (e : SvcError)
    (hval : validateStock db.products (mkCartLines db.products cart) = some e) :
    createOrder db cart userId dto userEmail userName today failAt =
      ((db, cart), .error e) := by
  have hne : mkCartLines db.products cart ≠ [] := by
    intro hnil
    rw [hnil] at hval
    cases hval
  have hempty : (mkCartLines db.products cart).isEmpty = false := by
    cases h : mkCartLines db.products cart with
    | nil => exact absurd h hne
    | cons a t => rfl
  unfold createOrder
  simp only [hempty, hval]
  rfl

/-- JS 2-decimal rounding is the identity on quantities that are an integer
number of cents. -/
theorem round2_eq_self {q : ℚ} (h : ∃ n : ℤ, q * 100 = (n : ℚ)) : round2 q = q := by
  obtain ⟨n, hn⟩ := h
  unfold round2 jsRound
  rw [hn]
  have hfloor : ⌊(n : ℚ) + 1 / 2⌋ = n := by
    rw [Int.floor_eq_iff]
    constructor
    · norm_num
    · norm_num
  rw [hfloor, ← hn]
  field_simp

/-- A sum of line totals over integer-cent prices is an integer number of
cents. -/
theorem sum_line_total_cents (lines : List CartLine)
    (h : ∀ l ∈ lines, ∃ n : ℤ, l.price * 100 = (n : ℚ)) :
    ∃ n : ℤ, (lines.map CartLine.line_total).sum * 100 = (n : ℚ) := by
  induction lines with
  | nil => exact ⟨0, by simp⟩
  | cons l t ih =>
    obtain ⟨n, hn⟩ := h l (List.mem_cons_self l t)
    obtain ⟨m, hm⟩ := ih (fun x hx => h x (List.mem_cons_of_mem l hx))
    refine ⟨n * l.quantity + m, ?_⟩
    rw [List.map_cons, List.sum_cons, add_mul, hm]
    unfold CartLine.line_total
    push_cast
    rw [← hn]
    ring

/-- The `find?` on an order list after an `updateOrder` whose update leaves the
searched column untouched. -/
theorem find?_updateOrder (orders : List Order) (oid : ℕ) (f : Order → Order)
    (p : Order → Bool) (hpres : ∀ o, p (f o) = p o) :
    (updateOrder orders oid f).find? p =
      (orders.find? p).map (fun o => if o.id == oid then f o else o) := by
  apply find?_map_pres
  intro o
  by_cases h : o.id = oid <;> simp [h, hpres]

/-- Cart lines carry over the stored items' product ids. -/
theorem mkCartLines_map_pid (ps : List Product) (cart : List CartItem) :
    (mkCartLines ps cart).map CartLine.product_id = cart.map CartItem.product_id := by
  unfold mkCartLines
  rw [List.map_map]
  rfl

theorem mkCartLines_length (ps : List Product) (cart : List CartItem) :
    (mkCartLines ps cart).length = cart.length := by
  unfold mkCartLines
  exact List.length_map _ _

/-! ### Concrete fixtures -/

def sampleAddr : ShippingAddressDto :=
  { first_name := "Ada", last_name := "L", email := none, phone := none
    address_line1 := "1 Main St", address_line2 := none, city := "Hanoi"
    state := none, postal_code := none, country := "VN" }

def sampleDto : CreateOrderDto :=
  { shipping_address := sampleAddr, payment_method := some "cod", notes := none }

def c1db : DB :=
  { products := [{ id := "p1", name := "Widget", price := 10, stock_quantity := 5 }]
    orders := [], orderItems := [], addresses := [], emailsSent := 0 }

def c1cart : List CartItem :=
  [{ product_id := "p1", quantity := 2, price := 10 }]

/-! ### Claims -/

/-- Claim C1 (refuted — the cart clear escapes the transaction): if the
database read that `CartService.clearCart` performs after its cart-item
deletion fails (step 6 of the checkout, still inside the claimed atomic
unit), the transaction rolls back every Order/OrderItem/ShippingAddress and
stock write, but the cart-item deletion already committed on the cart
service's own connection: the resulting state has no order and an emptied
cart, contradicting "the originating cart still contains all of its
items". -/
theorem createOrder_clearCart_escapes_transaction :
    createOrder c1db c1cart "u1" sampleDto "ada@example.com" "Ada" "20250101"
        (some .cartReadAfterDelete) =
      ((c1db, []), .error .injectedFailure) ∧ c1cart ≠ [] := by
  exact ⟨rfl, by decide⟩

/-- Claim C2: on a successful checkout every cart line's product ends with
`stock_quantity` decreased by exactly that line's quantity (stated through
the relative-decrement semantics of the `UPDATE`), and if any single line's
quantity exceeds the product's stock the whole operation fails with the
store and the cart unchanged. -/
theorem createOrder_stock_invariant
    (db : DB) (cart : List CartItem) (userId : String) (dto : CreateOrderDto)
    (userEmail userName today : String)
    (hnd : (cart.map CartItem.product_id).Nodup) :
    ((∀ ci ∈ cart, ∃ p, findProduct db.products ci.product_id = some p ∧
          (ci.quantity : ℤ) ≤ p.stock_quantity) → cart ≠ [] →
        (∃ o, (createOrder db cart userId dto userEmail userName today none).2 = .ok o) ∧
        ∀ ci ∈ cart,
          stockOf (createOrder db cart userId dto userEmail userName today none).1.1.products
              ci.product_id =
            (stockOf db.products ci.product_id).map (fun s => s - (ci.quantity : ℤ))) ∧
    ((∃ ci ∈ cart, ∃ p, findProduct db.products ci.product_id = some p ∧
          p.stock_quantity < (ci.quantity : ℤ)) →
      ∃ e, ∀ failAt, createOrder db cart userId dto userEmail userName today failAt =
          ((db, cart), .error e)) := by
  constructor
  · intro hok hne
    have hlines : ∀ l ∈ mkCartLines db.products cart, ∃ p,
        findProduct db.products l.product_id = some p ∧
          (l.quantity : ℤ) ≤ p.stock_quantity := by
      intro l hl
      obtain ⟨ci, hci, rfl⟩ := List.mem_map.mp hl
      exact hok ci hci
    have hval := validateStock_none db.products _ hlines
    have hnil : mkCartLines db.products cart ≠ [] := by
      intro h
      unfold mkCartLines at h
      exact hne (List.map_eq_nil_iff.mp h)
    rw [createOrder_success db cart userId dto userEmail userName today hnil hval]
    refine ⟨⟨_, rfl⟩, ?_⟩
    intro ci hci
    have hndl : ((mkCartLines db.products cart).map CartLine.product_id).Nodup := by
      rw [mkCartLines_map_pid]
      exact hnd
    have hmem :
        (⟨ci.product_id, ((findProduct db.products ci.product_id).map Product.name).getD "",
          ci.quantity, ci.price⟩ : CartLine) ∈ mkCartLines db.products cart :=
      List.mem_map_of_mem _ hci
    have hstep := stockOf_adjustMany_mem CartLine.product_id
      (fun l => -(l.quantity : ℤ)) (mkCartLines db.products cart) db.products _ hndl hmem
    show stockOf (adjustMany CartLine.product_id (fun l => -(l.quantity : ℤ))
        (mkCartLines db.products cart) db.products) ci.product_id = _
    simpa [sub_eq_add_neg] using hstep
  · intro hbad
    have hlines : ∃ l ∈ mkCartLines db.products cart, ∃ p,
        findProduct db.products l.product_id = some p ∧
          p.stock_quantity < (l.quantity : ℤ) := by
      obtain ⟨ci, hci, p, hp, hlt⟩ := hbad
      exact ⟨_, List.mem_map_of_mem _ hci, p, hp, hlt⟩
    obtain ⟨e, he⟩ := validateStock_some db.products _ hlines
    exact ⟨e, fun failAt =>
      createOrder_validation_error db cart userId dto userEmail userName today failAt e he⟩

def c2db : DB :=
  { products := [{ id := "p1", name := "Widget", price := 10, stock_quantity := 5 },
                 { id := "p2", name := "Gadget", price := 3, stock_quantity := 1 }]
    orders := [], orderItems := [], addresses := [], emailsSent := 0 }

def c2cart : List CartItem :=
  [{ product_id := "p1", quantity := 2, price := 10 },
   { product_id := "p2", quantity := 1, price := 3 }]

/-- Witness for C2 at a concrete two-line cart. -/
theorem createOrder_stock_invariant_witness :
    ∃ o, (createOrder c2db c2cart "u1" sampleDto "ada@example.com" "Ada" "20250101" none).2 =
      .ok o :=
  ((createOrder_stock_invariant c2db c2cart "u1" sampleDto "ada@example.com" "Ada" "20250101"
      (by decide)).1 (by decide) (by decide)).1

/-- Claim C8: a successful checkout of an `N`-distinct-product cart appends
exactly `N` OrderItem snapshots whose subtotals sum to the order's
`subtotal`, and the order satisfies
`total = subtotal + shipping_fee + tax - discount` with all three policy
fields zero. -/
theorem createOrder_totals_spec
    (db : DB) (cart : List CartItem) (userId : String) (dto : CreateOrderDto)
    (userEmail userName today : String)
    (hnd : (cart.map CartItem.product_id).Nodup)
    (hne : cart ≠ [])
    (hok : ∀ ci ∈ cart, ∃ p, findProduct db.products ci.product_id = some p ∧
        (ci.quantity : ℤ) ≤ p.stock_quantity)
    (hcents : ∀ ci ∈ cart, ∃ n : ℤ, ci.price * 100 = (n : ℚ)) :
    ∃ o newItems,
      (createOrder db cart userId dto userEmail userName today none).2 = .ok o ∧
      (createOrder db cart userId dto userEmail userName today none).1.1.orderItems =
        db.orderItems ++ newItems ∧
      newItems.length = cart.length ∧
      (newItems.map OrderItem.subtotal).sum = o.subtotal ∧
      o.total = o.subtotal + o.shipping_fee + o.tax - o.discount ∧
      o.shipping_fee = 0 ∧ o.tax = 0 ∧ o.discount = 0 := by
  have hlines : ∀ l ∈ mkCartLines db.products cart, ∃ p,
      findProduct db.products l.product_id = some p ∧
        (l.quantity : ℤ) ≤ p.stock_quantity := by
    intro l hl
    obtain ⟨ci, hci, rfl⟩ := List.mem_map.mp hl
    exact hok ci hci
  have hval := validateStock_none db.products _ hlines
  have hnil : mkCartLines db.products cart ≠ [] := by
    intro h
    unfold mkCartLines at h
    exact hne (List.map_eq_nil_iff.mp h)
  rw [createOrder_success db cart userId dto userEmail userName today hnil hval]
  refine ⟨_, (mkCartLines db.products cart).map
      (mkOrderItem (db.orders.length + 1)), rfl, rfl, ?_, ?_, rfl, rfl, rfl, rfl⟩
  · rw [List.length_map, mkCartLines_length]
  · have hlc : ∀ l ∈ mkCartLines db.products cart, ∃ n : ℤ, l.price * 100 = (n : ℚ) := by
      intro l hl
      obtain ⟨ci, hci, rfl⟩ := List.mem_map.mp hl
      exact hcents ci hci
    have hS := sum_line_total_cents _ hlc
    show (((mkCartLines db.products cart).map (mkOrderItem (db.orders.length + 1))).map
        OrderItem.subtotal).sum = cartSubtotal (mkCartLines db.products cart)
    rw [List.map_map]
    unfold cartSubtotal
    rw [round2_eq_self hS]
    rfl

def c8db : DB :=
  { products := [{ id := "p1", name := "Widget", price := 10, stock_quantity := 5 }]
    orders := [], orderItems := [], addresses := [], emailsSent := 0 }

def c8cart : List CartItem :=
  [{ product_id := "p1", quantity := 2, price := 10 }]

/-- Witness for C8: the §8 scenario — one line of qty 2 at price 10 gives
one OrderItem and `subtotal = total = 20`. -/
theorem createOrder_totals_spec_witness :
    ∃ o newItems,
      (createOrder c8db c8cart "u1" sampleDto "ada@example.com" "Ada" "20250101" none).2 =
        .ok o ∧
      (createOrder c8db c8cart "u1" sampleDto "ada@example.com" "Ada" "20250101"
          none).1.1.orderItems = c8db.orderItems ++ newItems ∧
      newItems.length = c8cart.length ∧
      (newItems.map OrderItem.subtotal).sum = o.subtotal ∧
      o.total = o.subtotal + o.shipping_fee + o.tax - o.discount ∧
      o.shipping_fee = 0 ∧ o.tax = 0 ∧ o.discount = 0 :=
  createOrder_totals_spec c8db c8cart "u1" sampleDto "ada@example.com" "Ada" "20250101"
    (by decide) (by decide) (by decide)
    (fun ci hci => by
      have hc : ci = { product_id := "p1", quantity := 2, price := 10 } := by
        simpa [c8cart] using hci
      exact ⟨1000, by rw [hc]; norm_num⟩)

def c9db : DB :=
  { products := [{ id := "p1", name := "Widget", price := 10, stock_quantity := 5 }]
    orders := [], orderItems := [], addresses := [], emailsSent := 0 }

def c9cart : List CartItem :=
  [{ product_id := "p1", quantity := 2, price := 10 }]

/-- Claim C9: every generated order number is
`ORD-<date>-<(count of today's orders) + 1, zero-padded to 4 digits>` (a
4-character sequence whenever today's count stays below 9999), and two
sequential same-day checkouts receive `ORD-20250101-0001` and
`ORD-20250101-0002`. -/
theorem generateOrderNumber_spec :
    (∀ (orders : List Order) (today : String),
        todayCount orders today + 1 ≤ 9999 →
        generateOrderNumber orders today =
          "ORD-" ++ today ++ "-" ++ padStart4 (Nat.repr (todayCount orders today + 1)) ∧
        (padStart4 (Nat.repr (todayCount orders today + 1))).length = 4) ∧
    ((createOrder c9db c9cart "u1" sampleDto "ada@example.com" "Ada" "20250101"
          none).2.toOption.map Order.order_number = some "ORD-20250101-0001" ∧
      (createOrder
          (createOrder c9db c9cart "u1" sampleDto "ada@example.com" "Ada" "20250101" none).1.1
          c9cart "u1" sampleDto "ada@example.com" "Ada" "20250101"
          none).2.toOption.map Order.order_number = some "ORD-20250101-0002") := by
  constructor
  · intro orders today hle
    refine ⟨rfl, ?_⟩
    have hlen : (Nat.repr (todayCount orders today + 1)).length ≤ 4 :=
      Nat.repr_length _ 4 (by norm_num) (by omega)
    unfold padStart4
    rw [String.length_append]
    have h1 : (String.mk
        (List.replicate (4 - (Nat.repr (todayCount orders today + 1)).length) '0')).length =
        4 - (Nat.repr (todayCount orders today + 1)).length := by
      show (List.replicate (4 - (Nat.repr (todayCount orders today + 1)).length) '0').length = _
      exact List.length_replicate _ _
    rw [h1]
    omega
  · exact ⟨rfl, rfl⟩

/-- Witness for C9's universal part at the empty store. -/
theorem generateOrderNumber_spec_witness :
    generateOrderNumber [] "20250101" =
        "ORD-" ++ "20250101" ++ "-" ++ padStart4 (Nat.repr (todayCount [] "20250101" + 1)) ∧
      (padStart4 (Nat.repr (todayCount [] "20250101" + 1))).length = 4 :=
  generateOrderNumber_spec.1 [] "20250101" (by decide)

/-! ### Settlement lemmas and claims C3 / C4 -/

theorem markOrderPaid_orders (db : DB) (o : Order) (tid : String) (emailOk : Bool) :
    (markOrderPaid db o tid emailOk).orders =
      updateOrder db.orders o.id
        (fun x => { x with payment_status := .paid, status := .processing }) := by
  unfold markOrderPaid
  cases o.user_email <;> rfl

theorem markOrderPaid_products (db : DB) (o : Order) (tid : String) (emailOk : Bool) :
    (markOrderPaid db o tid emailOk).products = db.products := by
  unfold markOrderPaid
  cases o.user_email <;> rfl

theorem markOrderPaid_emailsSent (db : DB) (o : Order) (tid : String) (emailOk : Bool)
    (h : o.user_email.isSome) :
    (markOrderPaid db o tid emailOk).emailsSent = db.emailsSent + 1 := by
  rcases hm : o.user_email with _ | x
  · rw [hm] at h
    cases h
  · simp [markOrderPaid, hm]

def c4o : Order :=
  { id := 1, user_id := "u1", order_number := "ORD-20250101-0001"
    status := .shipped, payment_status := .pending, payment_method := "vnpay"
    subtotal := 20, shipping_fee := 0, tax := 0, discount := 0, total := 20
    currency := "USD", notes := none, created_day := "20250101"
    user_email := none, user_first_name := "Ada" }

def c4db : DB :=
  { products := [], orders := [c4o], orderItems := [], addresses := [], emailsSent := 0 }

/-- Claim C4, counterexample: on an order whose status is `shipped`,
`markOrderPaid` still overwrites `status` with `processing` — the update is
unconditional, not guarded by "only if still pending". -/
theorem markOrderPaid_overwrites_nonpending_status :
    c4o.status = OrderStatus.shipped ∧
    (markOrderPaid c4db c4o "tx" true).orders.map Order.status = [OrderStatus.processing] ∧
    OrderStatus.processing ≠ OrderStatus.shipped :=
  ⟨rfl, rfl, by decide⟩

/-- Claim C4 (amended): `markOrderPaid` sets `payment_status = paid` and
unconditionally sets `status = processing` regardless of the order's prior
status; the confirmation-email attempt (made when the joined user has an
email) is best-effort — whether the mail service succeeds never changes the
outcome; `markOrderPaymentFailed` sets `payment_status = failed`. -/
theorem markOrderPaid_spec :
    ∀ (db : DB) (o : Order) (tid : String) (emailOk : Bool),
      (∀ o1 ∈ (markOrderPaid db o tid emailOk).orders, o1.id = o.id →
          o1.payment_status = .paid ∧ o1.status = .processing) ∧
      markOrderPaid db o tid true = markOrderPaid db o tid false ∧
      (markOrderPaid db o tid emailOk).products = db.products ∧
      (o.user_email.isSome →
        (markOrderPaid db o tid emailOk).emailsSent = db.emailsSent + 1) ∧
      (∀ o1 ∈ (markOrderPaymentFailed db o).orders, o1.id = o.id →
          o1.payment_status = .failed) := by
  intro db o tid emailOk
  refine ⟨?_, rfl, markOrderPaid_products db o tid emailOk,
    markOrderPaid_emailsSent db o tid emailOk, ?_⟩
  · intro o1 h1 hid
    rw [markOrderPaid_orders] at h1
    obtain ⟨x, hx, rfl⟩ := List.mem_map.mp h1
    by_cases hxid : x.id = o.id
    · simp [hxid]
    · simp [hxid] at hid
  · intro o1 h1 hid
    obtain ⟨x, hx, rfl⟩ := List.mem_map.mp h1
    by_cases hxid : x.id = o.id
    · simp [hxid]
    · simp [hxid] at hid

def w4o : Order :=
  { id := 1, user_id := "u1", order_number := "ORD-20250101-0002"
    status := .pending, payment_status := .pending, payment_method := "stripe"
    subtotal := 20, shipping_fee := 0, tax := 0, discount := 0, total := 20
    currency := "USD", notes := none, created_day := "20250101"
    user_email := some "ada@example.com", user_first_name := "Ada" }

def w4db : DB :=
  { products := [], orders := [w4o], orderItems := [], addresses := [], emailsSent := 0 }

/-- Witness for C4 at a concrete pending order with a user email. -/
theorem markOrderPaid_spec_witness :
    (∀ o1 ∈ (markOrderPaid w4db w4o "tx" true).orders, o1.id = w4o.id →
        o1.payment_status = .paid ∧ o1.status = .processing) ∧
    (markOrderPaid w4db w4o "tx" true).emailsSent = w4db.emailsSent + 1 :=
  ⟨(markOrderPaid_spec w4db w4o "tx" true).1,
    (markOrderPaid_spec w4db w4o "tx" true).2.2.2.1 (by decide)⟩

theorem findOrderByNumber_updateOrder (orders : List Order) (oid : ℕ) (f : Order → Order)
    (num : String) (hpres : ∀ x, (f x).order_number = x.order_number) :
    findOrderByNumber (updateOrder orders oid f) num =
      (findOrderByNumber orders num).map (fun x => if x.id == oid then f x else x) := by
  unfold findOrderByNumber updateOrder
  apply find?_map_pres
  intro x
  by_cases h : x.id = oid <;> simp [h, hpres]

/-- Evaluation of `handleVNPayReturn` on a verified success notification for
a resolvable order. -/
theorem handleVNPayReturn_success (hmac : String → String) (db : DB)
    (ps : List (String × String)) (emailOk : Bool) (o : Order)
    (hvalid : (validateReturn hmac ps).isValid = true)
    (hfound : findOrderByNumber db.orders (validateReturn hmac ps).orderId = some o)
    (hcode : (validateReturn hmac ps).responseCode = "00") :
    handleVNPayReturn hmac db ps emailOk =
      (markOrderPaid db o (validateReturn hmac ps).transactionNo emailOk,
        .ok { success := true, message := "Transaction successful"
              orderId := o.id, orderNumber := o.order_number }) := by
  unfold handleVNPayReturn
  simp only [hvalid, hfound, hcode]
  rfl

/-- The order's payment column as resolved through `order_number`. -/
def paymentStatusByNumber (db : DB) (num : String) : Option PaymentStatus :=
  (findOrderByNumber db.orders num).map Order.payment_status

def c3hmac : String → String := fun s => "H:" ++ s

def c3ps : List (String × String) :=
  [("vnp_Amount", "2000"), ("vnp_ResponseCode", "00"), ("vnp_TmnCode", "TEST"),
   ("vnp_TransactionNo", "T1"), ("vnp_TxnRef", "ORD-20250101-0001"),
   ("vnp_SecureHash",
    "H:vnp_Amount=2000&vnp_ResponseCode=00&vnp_TmnCode=TEST&vnp_TransactionNo=T1&vnp_TxnRef=ORD-20250101-0001")]

def c3o : Order :=
  { id := 1, user_id := "u1", order_number := "ORD-20250101-0001"
    status := .pending, payment_status := .pending, payment_method := "vnpay"
    subtotal := 20, shipping_fee := 0, tax := 0, discount := 0, total := 20
    currency := "USD", notes := none, created_day := "20250101"
    user_email := some "ada@example.com", user_first_name := "Ada" }

def c3db : DB :=
  { products := [{ id := "p1", name := "Widget", price := 10, stock_quantity := 3 }]
    orders := [c3o], orderItems := [], addresses := [], emailsSent := 0 }

/-- Claim C3, counterexample: replaying the same verified payment-success
notification dispatches the confirmation email again — there is no
terminal-state check on the settlement path, so the second delivery is not
de-duplicated. -/
theorem handleVNPayReturn_replay_triggers_second_email :
    (handleVNPayReturn c3hmac c3db c3ps true).1.emailsSent = 1 ∧
    (handleVNPayReturn c3hmac
        (handleVNPayReturn c3hmac c3db c3ps true).1 c3ps true).1.emailsSent = 2 :=
  ⟨rfl, rfl⟩

/-- Claim C3 (amended): replaying a verified payment-success notification
yields the same final `payment_status = paid`, the same handler response,
and never touches any product's stock — but each successful replay
re-triggers the confirmation notification (the code has no terminal-state
de-duplication on this path). -/
theorem handleVNPayReturn_replay_state_idempotent
    (hmac : String → String) (db : DB) (ps : List (String × String)) (emailOk : Bool)
    (o : Order)
    (hvalid : (validateReturn hmac ps).isValid = true)
    (hfound : findOrderByNumber db.orders (validateReturn hmac ps).orderId = some o)
    (hcode : (validateReturn hmac ps).responseCode = "00")
    (hmail : o.user_email.isSome) :
    paymentStatusByNumber (handleVNPayReturn hmac db ps emailOk).1
        (validateReturn hmac ps).orderId = some .paid ∧
    paymentStatusByNumber
        (handleVNPayReturn hmac (handleVNPayReturn hmac db ps emailOk).1 ps emailOk).1
        (validateReturn hmac ps).orderId = some .paid ∧
    (handleVNPayReturn hmac (handleVNPayReturn hmac db ps emailOk).1 ps emailOk).1.products =
      db.products ∧
    (handleVNPayReturn hmac (handleVNPayReturn hmac db ps emailOk).1 ps emailOk).2 =
      (handleVNPayReturn hmac db ps emailOk).2 ∧
    (handleVNPayReturn hmac db ps emailOk).1.emailsSent = db.emailsSent + 1 ∧
    (handleVNPayReturn hmac
        (handleVNPayReturn hmac db ps emailOk).1 ps emailOk).1.emailsSent =
      db.emailsSent + 2 := by
  have h1 := handleVNPayReturn_success hmac db ps emailOk o hvalid hfound hcode
  have hfind1 : findOrderByNumber
      (markOrderPaid db o (validateReturn hmac ps).transactionNo emailOk).orders
      (validateReturn hmac ps).orderId =
        some { o with payment_status := .paid, status := .processing } := by
    rw [markOrderPaid_orders,
      findOrderByNumber_updateOrder db.orders o.id
        (fun x => { x with payment_status := .paid, status := .processing })
        (validateReturn hmac ps).orderId (fun x => rfl), hfound]
    simp
  have h2 := handleVNPayReturn_success hmac
    (markOrderPaid db o (validateReturn hmac ps).transactionNo emailOk) ps emailOk
    { o with payment_status := .paid, status := .processing } hvalid hfind1 hcode
  have hfind2 : findOrderByNumber
      (markOrderPaid (markOrderPaid db o (validateReturn hmac ps).transactionNo emailOk)
        { o with payment_status := .paid, status := .processing }
        (validateReturn hmac ps).transactionNo emailOk).orders
      (validateReturn hmac ps).orderId =
        some { o with payment_status := .paid, status := .processing } := by
    rw [markOrderPaid_orders,
      findOrderByNumber_updateOrder
        (markOrderPaid db o (validateReturn hmac ps).transactionNo emailOk).orders
        ({ o with payment_status := .paid, status := .processing } : Order).id
        (fun x => { x with payment_status := .paid, status := .processing })
        (validateReturn hmac ps).orderId (fun x => rfl), hfind1]
    simp
  refine ⟨?_, ?_, ?_, ?_, ?_, ?_⟩
  · rw [h1]
    unfold paymentStatusByNumber
    rw [hfind1]
    rfl
  · rw [h1, h2]
    unfold paymentStatusByNumber
    rw [hfind2]
    rfl
  · rw [h1, h2, markOrderPaid_products, markOrderPaid_products]
  · rw [h1, h2]
  · rw [h1]
    exact markOrderPaid_emailsSent db o (validateReturn hmac ps).transactionNo emailOk hmail
  · rw [h1, h2]
    show (markOrderPaid (markOrderPaid db o (validateReturn hmac ps).transactionNo emailOk)
        ({ o with payment_status := .paid, status := .processing } : Order)
        (validateReturn hmac ps).transactionNo emailOk).emailsSent = db.emailsSent + 2
    have e2 := markOrderPaid_emailsSent
      (markOrderPaid db o (validateReturn hmac ps).transactionNo emailOk)
      ({ o with payment_status := .paid, status := .processing } : Order)
      (validateReturn hmac ps).transactionNo emailOk hmail
    have e1 := markOrderPaid_emailsSent db o
      (validateReturn hmac ps).transactionNo emailOk hmail
    rw [e2, e1]

/-- Witness for C3's amended statement at the concrete replayed
notification. -/
theorem handleVNPayReturn_replay_state_idempotent_witness :
    paymentStatusByNumber (handleVNPayReturn c3hmac c3db c3ps true).1
        (validateReturn c3hmac c3ps).orderId = some .paid ∧
    (handleVNPayReturn c3hmac
        (handleVNPayReturn c3hmac c3db c3ps true).1 c3ps true).1.products = c3db.products ∧
    (handleVNPayReturn c3hmac
        (handleVNPayReturn c3hmac c3db c3ps true).1 c3ps true).1.emailsSent =
      c3db.emailsSent + 2 := by
  have h := handleVNPayReturn_replay_state_idempotent c3hmac c3db c3ps true c3o
    (by decide) (by decide) (by decide) (by decide)
  exact ⟨h.1, h.2.2.1, h.2.2.2.2.2⟩

/-! ### Parameter-list lemmas and claim C5 -/

theorem filter_setParam_excluded (ps : List (String × String)) (k v : String)
    (p : String × String → Bool) (h : ∀ w, p (k, w) = false) :
    (setParam ps k v).filter p = ps.filter p := by
  induction ps with
  | nil => rfl
  | cons kv t ih =>
    obtain ⟨k1, v1⟩ := kv
    have hstep : setParam ((k1, v1) :: t) k v =
        (if k1 == k then (k1, v) else (k1, v1)) :: setParam t k v := rfl
    rw [hstep]
    by_cases hk : k1 = k
    · subst hk
      rw [if_pos (by simp), List.filter_cons, List.filter_cons, ih, h v, h v1]
      simp
    · rw [if_neg (by simpa using hk), List.filter_cons, List.filter_cons, ih]

/-- Head-step equation for parameter lookup. -/
theorem getParam_cons (k1 v1 : String) (t : List (String × String)) (k : String) :
    getParam ((k1, v1) :: t) k = if k1 == k then some v1 else getParam t k := by
  cases hb : k1 == k with
  | true => simp [getParam, List.find?_cons, hb]
  | false => simp [getParam, List.find?_cons, hb]

theorem getParam_setParam_self (ps : List (String × String)) (k v : String)
    (h : (getParam ps k).isSome) :
    getParam (setParam ps k v) k = some v := by
  induction ps with
  | nil => simp [getParam] at h
  | cons kv t ih =>
    obtain ⟨k1, v1⟩ := kv
    by_cases hk : k1 = k
    · subst hk
      simp [getParam, setParam, List.find?_cons]
    · have h2 : (getParam t k).isSome := by
        simpa [getParam, List.find?_cons, hk] using h
      simpa [getParam, setParam, List.find?_cons, hk] using ih h2

theorem getParam_setParam_ne (ps : List (String × String)) (k k2 v : String)
    (h : k2 ≠ k) :
    getParam (setParam ps k v) k2 = getParam ps k2 := by
  induction ps with
  | nil => rfl
  | cons kv t ih =>
    obtain ⟨k1, v1⟩ := kv
    have hstep : setParam ((k1, v1) :: t) k v =
        (if k1 == k then (k1, v) else (k1, v1)) :: setParam t k v := rfl
    rw [hstep]
    by_cases hk : k1 = k
    · subst hk
      have hne : (k1 == k2) = false :=
        beq_eq_false_iff_ne.mpr (fun hh => h hh.symm)
      rw [if_pos (by simp), getParam_cons, getParam_cons, hne]
      simp [ih]
    · rw [if_neg (by simpa using hk), getParam_cons, getParam_cons]
      by_cases h12 : k1 = k2
      · simp [h12]
      · have hb : (k1 == k2) = false := beq_eq_false_iff_ne.mpr h12
        simp [hb, ih]

/-- Overwriting `vnp_SecureHash` leaves the signed data untouched: the hash
fields are excluded from the canonical string before signing. -/
theorem signData_setParam_hash (ps : List (String × String)) (v : String) :
    signData (setParam ps "vnp_SecureHash" v) = signData ps := by
  unfold signData
  rw [filter_setParam_excluded]
  intro w
  simp

/-- Claim C5: verification recomputes the HMAC over the alphabetically
sorted parameters minus `vnp_SecureHash`/`vnp_SecureHashType` and a mismatch
is rejected before any order state is touched; for a verifying parameter
set, changing `vnp_SecureHash` to any other value fails verification
outright, and changing the value stored under any other (signed) key fails
verification whenever the two canonical strings do not collide under the
HMAC. -/
theorem vnpay_signature_gate (hmac : String → String) :
    (∀ (db : DB) (ps : List (String × String)) (emailOk : Bool),
        (validateReturn hmac ps).isValid = false →
        handleVNPayReturn hmac db ps emailOk = (db, .error .invalidSignature)) ∧
    (∀ (ps : List (String × String)) (h0 h1 : String),
        (validateReturn hmac ps).isValid = true →
        getParam ps "vnp_SecureHash" = some h0 →
        h1 ≠ h0 →
        (validateReturn hmac (setParam ps "vnp_SecureHash" h1)).isValid = false) ∧
    (∀ (ps : List (String × String)) (k v : String),
        (validateReturn hmac ps).isValid = true →
        (getParam ps "vnp_SecureHash").isSome →
        k ≠ "vnp_SecureHash" →
        hmac (signData (setParam ps k v)) ≠ hmac (signData ps) →
        (validateReturn hmac (setParam ps k v)).isValid = false) := by
  refine ⟨?_, ?_, ?_⟩
  · intro db ps emailOk h
    unfold handleVNPayReturn
    simp [h]
  · intro ps h0 h1 hv hg hne
    have heq : h0 = hmac (signData ps) := by
      rw [show (validateReturn hmac ps).isValid =
          ((getParam ps "vnp_SecureHash").getD "" == hmac (signData ps)) from rfl,
        hg] at hv
      simpa using hv
    have hget : getParam (setParam ps "vnp_SecureHash" h1) "vnp_SecureHash" = some h1 :=
      getParam_setParam_self ps "vnp_SecureHash" h1 (by rw [hg]; rfl)
    show ((getParam (setParam ps "vnp_SecureHash" h1) "vnp_SecureHash").getD "" ==
        hmac (signData (setParam ps "vnp_SecureHash" h1))) = false
    rw [hget, signData_setParam_hash, Option.getD_some]
    exact beq_eq_false_iff_ne.mpr (heq ▸ hne)
  · intro ps k v hv hsome hk hcol
    obtain ⟨h0, hg⟩ := Option.isSome_iff_exists.mp hsome
    have heq : h0 = hmac (signData ps) := by
      rw [show (validateReturn hmac ps).isValid =
          ((getParam ps "vnp_SecureHash").getD "" == hmac (signData ps)) from rfl,
        hg] at hv
      simpa using hv
    have hget : getParam (setParam ps k v) "vnp_SecureHash" =
        getParam ps "vnp_SecureHash" :=
      getParam_setParam_ne ps k "vnp_SecureHash" v (fun hh => hk hh.symm)
    show ((getParam (setParam ps k v) "vnp_SecureHash").getD "" ==
        hmac (signData (setParam ps k v))) = false
    rw [hget, hg, Option.getD_some]
    exact beq_eq_false_iff_ne.mpr (fun hh => hcol (by rw [← hh, heq]))

def c5hmac : String → String := fun s => "H:" ++ s

def c5db : DB :=
  { products := [], orders := [], orderItems := [], addresses := [], emailsSent := 0 }

def c5ps : List (String × String) :=
  [("vnp_Amount", "999"), ("vnp_ResponseCode", "24"), ("vnp_TxnRef", "ORD-X"),
   ("vnp_SecureHash", "H:vnp_Amount=999&vnp_ResponseCode=24&vnp_TxnRef=ORD-X")]

def c5bad : List (String × String) :=
  [("vnp_Amount", "999"), ("vnp_SecureHash", "nope")]

/-- Witness for C5: a bad signature is rejected with no state change, and
tampering with either the supplied hash or a signed field of a verifying
set fails verification. -/
theorem vnpay_signature_gate_witness :
    handleVNPayReturn c5hmac c5db c5bad true = (c5db, .error .invalidSignature) ∧
    (validateReturn c5hmac (setParam c5ps "vnp_SecureHash" "x")).isValid = false ∧
    (validateReturn c5hmac (setParam c5ps "vnp_Amount" "1")).isValid = false :=
  ⟨(vnpay_signature_gate c5hmac).1 c5db c5bad true (by decide),
   (vnpay_signature_gate c5hmac).2.1 c5ps
     "H:vnp_Amount=999&vnp_ResponseCode=24&vnp_TxnRef=ORD-X" "x"
     (by decide) (by decide) (by decide),
   (vnpay_signature_gate c5hmac).2.2 c5ps "vnp_Amount" "1"
     (by decide) (by decide) (by decide) (by decide)⟩

/-! ### Claim C6 -/

/-- Claim C6: cancelling an order whose status is `processing`, `shipped`,
`delivered` or `cancelled` fails with the invalid-state error and changes
nothing; cancelling a `pending` order succeeds, sets `status = cancelled`,
and restores each order line's quantity to its product's stock exactly once
(products outside the order keep their stock). -/
theorem cancelOrder_spec (db : DB) (orderId : ℕ) (userId : String) (o : Order)
    (hfind : db.orders.find? (fun x => x.id == orderId && x.user_id == userId) = some o) :
    (o.status ∈ [OrderStatus.processing, OrderStatus.shipped, OrderStatus.delivered,
        OrderStatus.cancelled] →
      cancelOrder db orderId userId = (db, .error .invalidState)) ∧
    (o.status = OrderStatus.pending →
      ((db.orderItems.filter (fun it => it.order_id == orderId)).map
          OrderItem.product_id).Nodup →
      (∃ o1, (cancelOrder db orderId userId).2 = .ok o1 ∧ o1.status = .cancelled) ∧
      (∀ o1 ∈ (cancelOrder db orderId userId).1.orders, o1.id = o.id →
          o1.status = .cancelled) ∧
      (∀ it ∈ db.orderItems.filter (fun it => it.order_id == orderId),
          stockOf (cancelOrder db orderId userId).1.products it.product_id =
            (stockOf db.products it.product_id).map (· + (it.quantity : ℤ))) ∧
      (∀ pid, pid ∉ (db.orderItems.filter (fun it => it.order_id == orderId)).map
            OrderItem.product_id →
          stockOf (cancelOrder db orderId userId).1.products pid =
            stockOf db.products pid)) := by
  constructor
  · intro hmem
    have hne : o.status ≠ OrderStatus.pending := by
      intro hpend
      rw [hpend] at hmem
      simp at hmem
    unfold cancelOrder
    simp only [hfind]
    rw [if_pos hne]
  · intro hpend hnd
    have hc : cancelOrder db orderId userId =
        ({ db with
            products := adjustMany OrderItem.product_id (fun it => (it.quantity : ℤ))
              (db.orderItems.filter (fun it => it.order_id == orderId)) db.products
            orders := updateOrder db.orders o.id (fun x => { x with status := .cancelled }) },
          .ok { o with status := .cancelled }) := by
      unfold cancelOrder
      simp only [hfind]
      rw [if_neg (by rw [hpend]; exact fun h => h rfl)]
      rfl
    refine ⟨⟨{ o with status := .cancelled }, by rw [hc], rfl⟩, ?_, ?_, ?_⟩
    · intro o1 h1 hid
      rw [hc] at h1
      have h2 : o1 ∈ updateOrder db.orders o.id
          (fun x => { x with status := OrderStatus.cancelled }) := h1
      obtain ⟨x, hx, rfl⟩ := List.mem_map.mp h2
      by_cases hxid : x.id = o.id
      · simp [hxid]
      · simp [hxid] at hid
    · intro it hit
      rw [hc]
      exact stockOf_adjustMany_mem OrderItem.product_id (fun it => (it.quantity : ℤ))
        (db.orderItems.filter (fun it => it.order_id == orderId)) db.products it hnd hit
    · intro pid hpid
      rw [hc]
      exact stockOf_adjustMany_notMem OrderItem.product_id (fun it => (it.quantity : ℤ))
        (db.orderItems.filter (fun it => it.order_id == orderId)) db.products pid hpid

def c6o : Order :=
  { id := 1, user_id := "u1", order_number := "ORD-20250101-0001"
    status := .pending, payment_status := .pending, payment_method := "cod"
    subtotal := 20, shipping_fee := 0, tax := 0, discount := 0, total := 20
    currency := "USD", notes := none, created_day := "20250101"
    user_email := some "ada@example.com", user_first_name := "Ada" }

def c6db : DB :=
  { products := [{ id := "p1", name := "Widget", price := 10, stock_quantity := 3 }]
    orders := [c6o]
    orderItems := [{ order_id := 1, product_id := "p1", product_name := "Widget"
                     product_sku := none, quantity := 2, price := 10, subtotal := 20 }]
    addresses := [], emailsSent := 0 }

/-- Witness for C6 at a concrete pending order with one line. -/
theorem cancelOrder_spec_witness :
    ∃ o1, (cancelOrder c6db 1 "u1").2 = .ok o1 ∧ o1.status = .cancelled :=
  ((cancelOrder_spec c6db 1 "u1" c6o (by decide)).2 (by decide) (by decide)).1

/-! ### Claim C7 -/

/-- Claim C7: both payment entry points reject an order already `paid` or
`refunded` with the corresponding business error and leave the store
untouched; in any other payment state they proceed and record the chosen
payment method on the order. -/
theorem payment_terminal_state_gate
    (hmac : String → String) (tmnCode returnUrl urlBase : String)
    (db : DB) (orderId : ℕ) (userId : String) (intent : String × String)
    (ipAddr createDate expireDate : String) (o : Order)
    (hfind : db.orders.find? (fun x => x.id == orderId && x.user_id == userId) = some o) :
    (o.payment_status = .paid →
      createStripePaymentIntent db orderId userId intent = (db, .error .alreadyPaid) ∧
      createVNPayPaymentUrl hmac tmnCode returnUrl urlBase db orderId userId ipAddr
        createDate expireDate = (db, .error .alreadyPaid)) ∧
    (o.payment_status = .refunded →
      createStripePaymentIntent db orderId userId intent = (db, .error .alreadyRefunded) ∧
      createVNPayPaymentUrl hmac tmnCode returnUrl urlBase db orderId userId ipAddr
        createDate expireDate = (db, .error .alreadyRefunded)) ∧
    (o.payment_status ≠ .paid → o.payment_status ≠ .refunded →
      (∃ r, (createStripePaymentIntent db orderId userId intent).2 = .ok r) ∧
      (∀ o1 ∈ (createStripePaymentIntent db orderId userId intent).1.orders,
          o1.id = o.id → o1.payment_method = "stripe") ∧
      (∃ r, (createVNPayPaymentUrl hmac tmnCode returnUrl urlBase db orderId userId
          ipAddr createDate expireDate).2 = .ok r) ∧
      (∀ o1 ∈ (createVNPayPaymentUrl hmac tmnCode returnUrl urlBase db orderId userId
          ipAddr createDate expireDate).1.orders,
          o1.id = o.id → o1.payment_method = "vnpay")) := by
  refine ⟨?_, ?_, ?_⟩
  · intro hp
    have hfp : findOrderForPayment db orderId userId = .error .alreadyPaid := by
      unfold findOrderForPayment
      simp only [hfind]
      rw [if_pos hp]
    constructor
    · unfold createStripePaymentIntent
      simp only [hfp]
    · unfold createVNPayPaymentUrl
      simp only [hfp]
  · intro hr
    have hfp : findOrderForPayment db orderId userId = .error .alreadyRefunded := by
      unfold findOrderForPayment
      simp only [hfind]
      rw [if_neg (by rw [hr]; decide), if_pos hr]
    constructor
    · unfold createStripePaymentIntent
      simp only [hfp]
    · unfold createVNPayPaymentUrl
      simp only [hfp]
  · intro hp hr
    have hfp : findOrderForPayment db orderId userId = .ok o := by
      unfold findOrderForPayment
      simp only [hfind]
      rw [if_neg hp, if_neg hr]
    have hs : createStripePaymentIntent db orderId userId intent =
        ({ db with orders := (updateOrder db.orders o.id
            (fun x => { x with payment_method := "stripe" })) },
          .ok { clientSecret := intent.1, paymentIntentId := intent.2
                amount := o.total, currency := o.currency }) := by
      unfold createStripePaymentIntent
      simp only [hfp]
    have hv : createVNPayPaymentUrl hmac tmnCode returnUrl urlBase db orderId userId
        ipAddr createDate expireDate =
        ({ db with orders := (updateOrder db.orders o.id
            (fun x => { x with payment_method := "vnpay" })) },
          .ok { paymentUrl := createPaymentUrl hmac tmnCode returnUrl urlBase o ipAddr
                  createDate expireDate
                orderNumber := o.order_number }) := by
      unfold createVNPayPaymentUrl
      simp only [hfp]
    refine ⟨⟨_, by rw [hs]⟩, ?_, ⟨_, by rw [hv]⟩, ?_⟩
    · intro o1 h1 hid
      rw [hs] at h1
      have h2 : o1 ∈ updateOrder db.orders o.id
          (fun x => { x with payment_method := "stripe" }) := h1
      obtain ⟨x, hx, rfl⟩ := List.mem_map.mp h2
      by_cases hxid : x.id = o.id
      · simp [hxid]
      · simp [hxid] at hid
    · intro o1 h1 hid
      rw [hv] at h1
      have h2 : o1 ∈ updateOrder db.orders o.id
          (fun x => { x with payment_method := "vnpay" }) := h1
      obtain ⟨x, hx, rfl⟩ := List.mem_map.mp h2
      by_cases hxid : x.id = o.id
      · simp [hxid]
      · simp [hxid] at hid

def c7o : Order :=
  { id := 1, user_id := "u1", order_number := "ORD-20250101-0001"
    status := .pending, payment_status := .paid, payment_method := "stripe"
    subtotal := 20, shipping_fee := 0, tax := 0, discount := 0, total := 20
    currency := "USD", notes := none, created_day := "20250101"
    user_email := none, user_first_name := "Ada" }

def c7db : DB :=
  { products := [], orders := [c7o], orderItems := [], addresses := [], emailsSent := 0 }

/-- Witness for C7 at a concrete already-paid order. -/
theorem payment_terminal_state_gate_witness :
    createStripePaymentIntent c7db 1 "u1" ("cs", "pi") = (c7db, .error .alreadyPaid) ∧
    createVNPayPaymentUrl c5hmac "TEST" "http://r" "http://u" c7db 1 "u1" "127.0.0.1"
      "20250101120000" "20250101121500" = (c7db, .error .alreadyPaid) :=
  (payment_terminal_state_gate c5hmac "TEST" "http://r" "http://u" c7db 1 "u1" ("cs", "pi")
    "127.0.0.1" "20250101120000" "20250101121500" c7o (by decide)).1 (by decide)

/-! ### Claim C10 -/

/-- Claim C10: on the VNPay settlement path a verified notification whose
`vnp_TxnRef` matches no stored order number makes `handleVNPayReturn` throw
the not-found error, and the IPN controller propagates it; the Stripe
webhook path instead logs and drops a missing or unresolvable
`metadata.order_id`, returning without error. -/
theorem vnpay_throws_stripe_drops (hmac : String → String) (emailOk : Bool) :
    (∀ (db : DB) (ps : List (String × String)),
        (validateReturn hmac ps).isValid = true →
        findOrderByNumber db.orders (validateReturn hmac ps).orderId = none →
        handleVNPayReturn hmac db ps emailOk = (db, .error .notFound) ∧
        handleVNPayIPN hmac db ps emailOk = (db, .error .notFound)) ∧
    (∀ (db : DB) (tid : String),
        handlePaymentSuccess db none tid emailOk = (db, .ok ())) ∧
    (∀ (db : DB) (oid : ℕ) (tid : String),
        findOrderById db.orders oid = none →
        handlePaymentSuccess db (some oid) tid emailOk = (db, .ok ())) := by
  refine ⟨?_, fun db tid => rfl, ?_⟩
  · intro db ps hv hnone
    have h1 : handleVNPayReturn hmac db ps emailOk = (db, .error .notFound) := by
      unfold handleVNPayReturn
      simp only [hv, hnone]
      rfl
    refine ⟨h1, ?_⟩
    unfold handleVNPayIPN
    rw [h1]
  · intro db oid tid hnone
    unfold handlePaymentSuccess
    simp only [hnone]

def c10ps : List (String × String) :=
  [("vnp_Amount", "500"), ("vnp_ResponseCode", "00"), ("vnp_TxnRef", "ORD-MISSING"),
   ("vnp_SecureHash", "H:vnp_Amount=500&vnp_ResponseCode=00&vnp_TxnRef=ORD-MISSING")]

def c10db : DB :=
  { products := [], orders := [], orderItems := [], addresses := [], emailsSent := 0 }

/-- Witness for C10 at a concrete verified notification for an unknown
order reference. -/
theorem vnpay_throws_stripe_drops_witness :
    (handleVNPayReturn c5hmac c10db c10ps true = (c10db, .error .notFound) ∧
      handleVNPayIPN c5hmac c10db c10ps true = (c10db, .error .notFound)) ∧
    handlePaymentSuccess c10db (some 7) "pi_1" true = (c10db, .ok ()) :=
  ⟨(vnpay_throws_stripe_drops c5hmac true).1 c10db c10ps (by decide) (by decide),
   (vnpay_throws_stripe_drops c5hmac true).2.2 c10db 7 "pi_1" (by decide)⟩

end ECom
